import Mathlib

/-!
Shallow embedding of the defect-report bot (`defect_bot.py`, `s3_storage.py`,
`defect_categories.py`).

External collaborators (the OpenAI enrichment service, the S3 object store,
the Telegram transport) are modelled by explicit outcome parameters: each
Lean function takes the outcome of the external round trip as an argument
and computes exactly what the Python handler computes with that outcome.
Python strings are `String`, Python `None`-able values are `Option`,
Python truthiness of a string is non-emptiness.
-/

namespace TgDefect

/-- Outcome of the OpenAI chat-completion call made by `summarize_defect_text`:
the client/model may be unconfigured (`openai_client` or `MODEL` falsy), the
call may raise, or it succeeds returning the message content. -/
inductive SummarizeOutcome where
  | unconfigured
  | failure
  | success (content : String)
deriving DecidableEq

/-- Embedding of `summarize_defect_text` (defect_bot.py:171-203).
Unconfigured: return `raw_text.strip()[:300]`; on exception the same
fallback; on success return `content.strip()[:500]`. -/
def summarize_defect_text : SummarizeOutcome → String → String
  | .unconfigured, raw_text => (raw_text.trim).take 300
  | .failure, raw_text => (raw_text.trim).take 300
  | .success content, _ => (content.trim).take 500

/-- Outcome of the OpenAI vision call made by `analyze_image_quality_simple`:
unconfigured client, an exception (including a JSON parse error) carrying the
exception text, or a parsed JSON reply. In the success case `is_acceptable`
is the truthiness of `result.get("is_acceptable", False)` and `analysis` is
`result.get("analysis", "Анализ не предоставлен")`. -/
inductive VisionOutcome where
  | unconfigured
  | failure (err : String)
  | success (is_acceptable : Bool) (analysis : String)
deriving DecidableEq

/-- Embedding of `analyze_image_quality_simple` (defect_bot.py:206-264). -/
def analyze_image_quality_simple : VisionOutcome → Bool × String
  | .unconfigured => (true, "AI‑проверка выключена, фото принято по умолчанию.")
  | .failure err => (false, "Произошла ошибка при анализе изображения: " ++ err)
  | .success is_acceptable analysis => (is_acceptable, analysis)

/-- The outcomes of the S3 `get_object` read of `last_id.txt` that the
`except` clauses of `S3Storage.get_last_defect_number` handle: the object
body (decoded to a string, where `int()` may then raise the caught
`ValueError`), a `NoSuchKey` error, or any other `ClientError`. An exception
outside these classes is not handled and is modelled by
`S3RawReadOutcome.raised` below. -/
inductive S3ReadResult where
  | found (content : String)
  | noSuchKey
  | clientError (err : String)
deriving DecidableEq

/-- The full outcome space of the S3 `get_object` call inside
`get_last_defect_number`: one of the handled outcomes above, or an exception
that is neither a `ClientError` nor a `ValueError`/`AttributeError` — e.g. a
botocore `EndpointConnectionError` when the endpoint is unreachable, or a
failure while streaming the body — which the function does not catch. -/
inductive S3RawReadOutcome where
  | handled (r : S3ReadResult)
  | raised (err : String)
deriving DecidableEq

/-- Embedding of `S3Storage.get_last_defect_number` (s3_storage.py:330-352)
on the handled outcomes: `int(body.decode().strip())`; `NoSuchKey` gives 0,
any other `ClientError` gives 0, and a `ValueError` from `int` gives 0. -/
def get_last_defect_number : S3ReadResult → Int
  | .found content => ((content.trim).toInt?).getD 0
  | .noSuchKey => 0
  | .clientError _ => 0

/-- Embedding of `S3Storage.get_last_defect_number` over the full outcome
space: handled outcomes are swallowed into an integer as above, an uncaught
exception propagates to the caller (`.error`). -/
def get_last_defect_number_raw : S3RawReadOutcome → Except String Int
  | .handled r => .ok (get_last_defect_number r)
  | .raised err => .error err

/-- Embedding of `generate_defect_id` (defect_bot.py:40-50): read the last
number, add one, persist the new number (the string written to
`last_id.txt` is the second component), return `"D" + str(new_number)`. -/
def generate_defect_id (store : S3ReadResult) : String × String :=
  let last_number := get_last_defect_number store
  let new_number := last_number + 1
  ("D" ++ toString new_number, toString new_number)

/-- Embedding of `generate_defect_id` over the full outcome space of the
counter read: `generate_defect_id` catches nothing, so an exception raised
inside `get_last_defect_number` propagates out of it; on every handled
outcome it behaves as `generate_defect_id`. -/
def generate_defect_id_raw (store : S3RawReadOutcome) :
    Except String (String × String) :=
  match get_last_defect_number_raw store with
  | .error e => .error e
  | .ok last_number =>
    let new_number := last_number + 1
    .ok ("D" ++ toString new_number, toString new_number)

/-- Sequential fault-free issuance: `n` calls of `generate_defect_id`, where
each call reads back exactly the content persisted by the previous call. -/
def issueSeq : Nat → S3ReadResult → List String × S3ReadResult
  | 0, store => ([], store)
  | n + 1, store =>
    let p := generate_defect_id store
    let rest := issueSeq n (.found p.2)
    (p.1 :: rest.1, rest.2)

/-- Numeric part of an identifier of the form `"D" ++ digits`; used to state
monotonicity of issued identifiers. -/
def decodeId (s : String) : Nat := ((s.drop 1).toNat?).getD 0

/-! Decimal representation facts: `Nat.repr` consists of digit characters,
round-trips through `String.toNat?`, and is injective; identifier strings
`"D" ++ toString i` are fixed points of `strip`/`upper` normalization. -/

/-- The ten characters `Nat.digitChar` produces for arguments below 10. -/
def digitChars : List Char := ['0', '1', '2', '3', '4', '5', '6', '7', '8', '9']

theorem digitChar_mem_digitChars : ∀ d < 10, Nat.digitChar d ∈ digitChars := by
  decide

theorem digitChar_decode : ∀ d < 10, (Nat.digitChar d).toNat - '0'.toNat = d := by
  decide

theorem toDigitsCore_append : ∀ (f n : Nat) (ds : List Char),
    Nat.toDigitsCore 10 f n ds = Nat.toDigitsCore 10 f n [] ++ ds
  | 0, _, ds => by simp [Nat.toDigitsCore]
  | f + 1, n, ds => by
    simp only [Nat.toDigitsCore]
    by_cases h : n / 10 = 0
    · simp [h]
    · rw [if_neg h, if_neg h, toDigitsCore_append f (n / 10) (Nat.digitChar (n % 10) :: ds),
        toDigitsCore_append f (n / 10) [Nat.digitChar (n % 10)], List.append_assoc,
        List.singleton_append]

theorem toDigitsCore_ne_nil : ∀ (f n : Nat), 0 < f → Nat.toDigitsCore 10 f n [] ≠ []
  | 0, _, h => absurd h (by simp)
  | f + 1, n, _ => by
    simp only [Nat.toDigitsCore]
    by_cases h : n / 10 = 0
    · simp [h]
    · rw [if_neg h, toDigitsCore_append f (n / 10) [Nat.digitChar (n % 10)]]
      simp

theorem mem_toDigitsCore : ∀ (f n : Nat), ∀ c ∈ Nat.toDigitsCore 10 f n [], c ∈ digitChars
  | 0, _, c => by simp [Nat.toDigitsCore]
  | f + 1, n, c => by
    simp only [Nat.toDigitsCore]
    by_cases h : n / 10 = 0
    · rw [if_pos h]
      intro hc
      rw [List.mem_singleton] at hc
      exact hc ▸ digitChar_mem_digitChars (n % 10) (Nat.mod_lt n (by norm_num))
    · rw [if_neg h, toDigitsCore_append f (n / 10) [Nat.digitChar (n % 10)]]
      intro hc
      rcases List.mem_append.1 hc with h' | h'
      · exact mem_toDigitsCore f (n / 10) c h'
      · rw [List.mem_singleton] at h'
        exact h' ▸ digitChar_mem_digitChars (n % 10) (Nat.mod_lt n (by norm_num))

theorem decode_toDigitsCore : ∀ (f n a : Nat), n < f →
    List.foldl (fun m c => m * 10 + (c.toNat - '0'.toNat)) a (Nat.toDigitsCore 10 f n []) =
      a * 10 ^ (Nat.toDigitsCore 10 f n []).length + n
  | 0, _, _, h => absurd h (by simp)
  | f + 1, n, a, h => by
    simp only [Nat.toDigitsCore]
    by_cases h10 : n / 10 = 0
    · have hn : n < 10 := (Nat.div_eq_zero_iff (by norm_num)).1 h10
      rw [if_pos h10]
      simp only [List.foldl_cons, List.foldl_nil, List.length_singleton, pow_one]
      rw [digitChar_decode (n % 10) (Nat.mod_lt n (by norm_num)),
        Nat.mod_eq_of_lt hn]
    · have hn0 : 0 < n := by
        rcases Nat.eq_zero_or_pos n with h0 | h0
        · exact absurd (by simp [h0]) h10
        · exact h0
      have hdivlt : n / 10 < f :=
        lt_of_lt_of_le (Nat.div_lt_self hn0 (by norm_num)) (Nat.lt_succ_iff.1 h)
      rw [if_neg h10, toDigitsCore_append f (n / 10) [Nat.digitChar (n % 10)]]
      rw [List.foldl_append, decode_toDigitsCore f (n / 10) a hdivlt]
      simp only [List.foldl_cons, List.foldl_nil, List.length_append,
        List.length_singleton]
      rw [digitChar_decode (n % 10) (Nat.mod_lt n (by norm_num)), pow_succ]
      have := Nat.div_add_mod n 10
      ring_nf
      omega

theorem repr_data (n : Nat) : (Nat.repr n).data = Nat.toDigitsCore 10 (n + 1) n [] := rfl

theorem repr_data_ne_nil (n : Nat) : (Nat.repr n).data ≠ [] := by
  rw [repr_data]
  exact toDigitsCore_ne_nil (n + 1) n (Nat.succ_pos n)

theorem mem_repr_digit (n : Nat) : ∀ c ∈ (Nat.repr n).data, c ∈ digitChars := by
  rw [repr_data]
  exact mem_toDigitsCore (n + 1) n

theorem digitChars_isDigit : ∀ c ∈ digitChars, c.isDigit = true := by decide

theorem repr_isNat (n : Nat) : (Nat.repr n).isNat = true := by
  have hne : Nat.repr n ≠ "" := fun hEq => repr_data_ne_nil n (by rw [hEq])
  have hemp : (Nat.repr n).isEmpty = false := by
    rcases Bool.eq_false_or_eq_true (Nat.repr n).isEmpty with h | h
    · exact absurd ((String.isEmpty_iff _).1 h) hne
    · exact h
  unfold String.isNat
  rw [hemp, String.all_eq]
  refine List.all_eq_true.2 fun c hc => digitChars_isDigit c (mem_repr_digit n c hc)

theorem toNat?_repr (n : Nat) : (Nat.repr n).toNat? = some n := by
  unfold String.toNat?
  rw [if_pos (repr_isNat n), String.foldl_eq, repr_data,
    decode_toDigitsCore (n + 1) n 0 (Nat.lt_succ_self n)]
  simp

theorem repr_injective {m n : Nat} (h : Nat.repr m = Nat.repr n) : m = n := by
  have := congrArg String.toNat? h
  rw [toNat?_repr, toNat?_repr] at this
  exact Option.some.inj this

/-- Characters that can occur in a `"D" ++ str(number)` identifier. -/
def idChars : List Char := 'D' :: '-' :: digitChars

theorem idChars_not_whitespace : ∀ c ∈ idChars, c.isWhitespace = false := by decide

theorem idChars_toUpper : ∀ c ∈ idChars, c.toUpper = c := by decide

theorem idChars_not_dash_of_digit : ∀ c ∈ digitChars, (c = '-') = False := by decide

theorem data_append (a b : String) : (a ++ b).data = a.data ++ b.data := rfl

theorem toUpper_eq_self {s : String} (h : ∀ c ∈ s.data, c.toUpper = c) :
    s.toUpper = s := by
  show s.map Char.toUpper = s
  rw [String.map_eq]
  have hmap : s.data.map Char.toUpper = s.data :=
    (List.map_congr_left h).trans (List.map_id _)
  rw [hmap]

theorem takeWhileAux_start (c : Char) (cs : List Char)
    (hc : Char.isWhitespace c = false) :
    Substring.takeWhileAux ⟨c :: cs⟩ ⟨String.utf8Len (c :: cs)⟩
      Char.isWhitespace ⟨0⟩ = ⟨0⟩ := by
  have h1 := String.takeWhileAux_of_valid Char.isWhitespace [] (c :: cs) []
  simp only [List.nil_append, List.append_nil, String.utf8Len_nil, Nat.zero_add] at h1
  rw [h1, List.takeWhile_cons_of_neg (by simp [hc])]
  rfl

theorem takeRightWhileAux_stop (l : List Char) (c : Char)
    (hc : Char.isWhitespace c = false) :
    Substring.takeRightWhileAux ⟨l ++ [c]⟩ ⟨0⟩ Char.isWhitespace
      ⟨String.utf8Len l + c.utf8Size⟩ = ⟨String.utf8Len l + c.utf8Size⟩ := by
  unfold Substring.takeRightWhileAux
  rw [dif_pos (by
    show (0 : Nat) < String.utf8Len l + c.utf8Size
    exact Nat.add_pos_right _ (Char.utf8Size_pos c))]
  simp only [String.prev_of_valid l c [], String.get_of_valid l (c :: []),
    List.headD_cons, hc]
  rfl

theorem takeWhileAux_stop_zero (s : String) (p : Char → Bool) (i : String.Pos) :
    Substring.takeWhileAux s ⟨0⟩ p i = i := by
  unfold Substring.takeWhileAux
  rw [dif_neg (by exact Nat.not_lt_zero i.byteIdx)]

theorem takeRightWhileAux_stop_zero (s : String) (p : Char → Bool) (b : String.Pos) :
    Substring.takeRightWhileAux s b p ⟨0⟩ = ⟨0⟩ := by
  unfold Substring.takeRightWhileAux
  rw [dif_neg (by exact Nat.not_lt_zero b.byteIdx)]

theorem trim_empty : String.trim ⟨[]⟩ = ⟨[]⟩ := by
  show (Substring.trim ⟨⟨[]⟩, ⟨0⟩, ⟨0⟩⟩).toString = ⟨[]⟩
  rw [Substring.trim]
  rw [takeWhileAux_stop_zero, takeRightWhileAux_stop_zero]
  rfl

theorem trim_eq_self {s : String}
    (hhead : ∀ c, s.data.head? = some c → c.isWhitespace = false)
    (hlast : ∀ c, s.data.getLast? = some c → c.isWhitespace = false) :
    s.trim = s := by
  obtain ⟨sd⟩ := s
  cases sd with
  | nil => exact trim_empty
  | cons c cs =>
    rcases (c :: cs).eq_nil_or_concat with h | ⟨l, c', hconcat⟩
    · cases h
    · rw [List.concat_eq_append] at hconcat
      have hcw : Char.isWhitespace c = false := hhead c rfl
      have hcw' : Char.isWhitespace c' = false := by
        refine hlast c' ?_
        rw [hconcat]
        exact List.getLast?_concat l
      have hlen : String.utf8Len (c :: cs) = String.utf8Len l + c'.utf8Size := by
        rw [hconcat]
        simp [String.utf8Len_append]
      show (Substring.trim ⟨⟨c :: cs⟩, ⟨0⟩, ⟨String.utf8Len (c :: cs)⟩⟩).toString
        = ⟨c :: cs⟩
      rw [Substring.trim]
      rw [takeWhileAux_start c cs hcw]
      have he' : Substring.takeRightWhileAux ⟨c :: cs⟩ ⟨0⟩ Char.isWhitespace
          ⟨String.utf8Len (c :: cs)⟩ = ⟨String.utf8Len (c :: cs)⟩ := by
        rw [hlen, hconcat]
        exact takeRightWhileAux_stop l c' hcw'
      rw [he']
      exact String.toString_toSubstring ⟨c :: cs⟩

theorem trim_eq_self_of_subset {s : String} {allowed : List Char}
    (hmem : ∀ c ∈ s.data, c ∈ allowed)
    (hws : ∀ c ∈ allowed, c.isWhitespace = false) : s.trim = s := by
  refine trim_eq_self (fun c hc => hws c (hmem c ?_)) (fun c hc => hws c (hmem c ?_))
  · exact List.mem_of_mem_head? (Option.mem_def.2 hc)
  · exact List.mem_of_getLast?_eq_some hc

theorem digitChars_subset_idChars : ∀ c ∈ digitChars, c ∈ idChars := by decide

theorem trim_repr (k : Nat) : (Nat.repr k).trim = Nat.repr k :=
  trim_eq_self_of_subset (mem_repr_digit k)
    (fun c hc => idChars_not_whitespace c (digitChars_subset_idChars c hc))

theorem toInt?_repr (k : Nat) : (Nat.repr k).toInt? = some (k : Int) := by
  obtain ⟨c, rest, hd⟩ := List.exists_cons_of_ne_nil (repr_data_ne_nil k)
  have hcd : c ∈ digitChars := mem_repr_digit k c (by rw [hd]; exact List.mem_cons_self _ _)
  have hget : (Nat.repr k).get 0 = c := by
    have h1 := String.get_of_valid [] (Nat.repr k).data
    simp only [List.nil_append, String.utf8Len_nil] at h1
    have h2 : (⟨(Nat.repr k).data⟩ : String) = Nat.repr k := rfl
    rw [h2] at h1
    rw [show (0 : String.Pos) = ⟨0⟩ from rfl, h1, hd]
    rfl
  have hne : ¬ (Nat.repr k).get 0 = '-' := by
    rw [hget]
    intro hEq
    exact absurd (hEq ▸ hcd) (by decide)
  unfold String.toInt?
  rw [if_neg hne, toNat?_repr]
  rfl

theorem get_last_found_repr (k : Nat) :
    get_last_defect_number (.found (Nat.repr k)) = (k : Int) := by
  show ((Nat.repr k).trim.toInt?).getD 0 = (k : Int)
  rw [trim_repr, toInt?_repr]
  rfl

theorem toString_intOfNat (k : Nat) : toString ((k : Nat) : Int) = Nat.repr k := rfl

theorem generate_defect_id_found (k : Nat) :
    generate_defect_id (.found (Nat.repr k)) =
      ("D" ++ Nat.repr (k + 1), Nat.repr (k + 1)) := by
  show ("D" ++ toString (get_last_defect_number (.found (Nat.repr k)) + 1),
    toString (get_last_defect_number (.found (Nat.repr k)) + 1)) = _
  rw [get_last_found_repr, show (k : Int) + 1 = ((k + 1 : Nat) : Int) by omega]
  rfl

theorem generate_defect_id_noSuchKey :
    generate_defect_id .noSuchKey = ("D" ++ Nat.repr 1, Nat.repr 1) := rfl

theorem issueSeq_found (N : Nat) : ∀ k : Nat,
    (issueSeq N (.found (Nat.repr k))).1 =
      (List.range N).map (fun i => "D" ++ Nat.repr (k + i + 1)) := by
  induction N with
  | zero => intro k; rfl
  | succ n ih =>
    intro k
    simp only [issueSeq, generate_defect_id_found]
    rw [ih (k + 1), List.range_succ_eq_map, List.map_cons, List.map_map]
    refine congrArg₂ List.cons (by norm_num) ?_
    refine List.map_congr_left fun i _ => ?_
    simp only [Function.comp]
    exact congrArg (fun t => "D" ++ Nat.repr t) (by omega)

theorem issueSeq_noSuchKey (N : Nat) :
    (issueSeq N .noSuchKey).1 = (List.range N).map (fun i => "D" ++ Nat.repr (i + 1)) := by
  cases N with
  | zero => rfl
  | succ n =>
    simp only [issueSeq, generate_defect_id_noSuchKey]
    rw [issueSeq_found n 1, List.range_succ_eq_map, List.map_cons, List.map_map]
    refine congrArg₂ List.cons rfl ?_
    refine List.map_congr_left fun i _ => ?_
    simp only [Function.comp]
    exact congrArg (fun t => "D" ++ Nat.repr t) (by omega)

theorem idString_injective {x y : Nat} (h : "D" ++ Nat.repr x = "D" ++ Nat.repr y) :
    x = y := by
  have hdata := congrArg String.data h
  rw [data_append, data_append] at hdata
  have hd : (Nat.repr x).data = (Nat.repr y).data := by
    simpa using hdata
  have hrepr : Nat.repr x = Nat.repr y := String.ext hd
  exact repr_injective hrepr

theorem decodeId_idString (m : Nat) : decodeId ("D" ++ Nat.repr m) = m := by
  unfold decodeId
  have hdrop : ("D" ++ Nat.repr m).drop 1 = Nat.repr m := by
    rw [String.drop_eq]
    exact String.ext (by rw [data_append]; rfl)
  rw [hdrop, toNat?_repr]
  rfl

/-- Claim C2: under the sequential identifier policy with no concurrency,
each `issue()` reads the last number `n`, persists `n+1` and returns
`"D" + (n+1)`; starting from counter `k` (or an absent counter, read as 0),
`N` sequential issues yield exactly `D(k+1) … D(k+N)`, pairwise distinct and
strictly increasing. -/
theorem claim_C2_sequential_identifiers (k N : Nat) :
    generate_defect_id (.found (Nat.repr k)) =
      ("D" ++ Nat.repr (k + 1), Nat.repr (k + 1)) ∧
    generate_defect_id .noSuchKey = ("D" ++ Nat.repr 1, Nat.repr 1) ∧
    (issueSeq N (.found (Nat.repr k))).1 =
      (List.range N).map (fun i => "D" ++ Nat.repr (k + i + 1)) ∧
    (issueSeq N .noSuchKey).1 =
      (List.range N).map (fun i => "D" ++ Nat.repr (i + 1)) ∧
    ((issueSeq N (.found (Nat.repr k))).1).Nodup ∧
    ((issueSeq N (.found (Nat.repr k))).1).Pairwise
      (fun a b => decodeId a < decodeId b) := by
  refine ⟨generate_defect_id_found k, generate_defect_id_noSuchKey,
    issueSeq_found N k, issueSeq_noSuchKey N, ?_, ?_⟩
  · rw [issueSeq_found N k]
    refine List.Nodup.map (fun i j h => ?_) (List.nodup_range N)
    have := idString_injective h
    omega
  · rw [issueSeq_found N k, List.pairwise_map]
    refine (List.pairwise_lt_range N).imp fun {i j} hij => ?_
    rw [decodeId_idString, decodeId_idString]
    omega

/-- Claim C9 (original form) fails: a `ClientError` storage read error during
issuance is swallowed, not propagated; `get_last_defect_number` turns any
non-`NoSuchKey` `ClientError` (here an S3 `InternalError` reply) into 0, so
`issue()` still returns the successful identifier `D1` and persists 1. -/
theorem claim_C9_counterexample :
    get_last_defect_number (.clientError "An error occurred (InternalError)") = 0 ∧
    generate_defect_id (.clientError "An error occurred (InternalError)") =
      ("D1", "1") := by
  exact ⟨rfl, rfl⟩

/-- Claim C9 as amended: a storage failure during the counter read is
propagated to the caller only when the S3 call raises outside the handled
exception classes (not a `ClientError` and not a `ValueError` /
`AttributeError`) — e.g. the endpoint being unreachable — and then `issue()`
fails with that error; but a `ClientError` read error other than `NoSuchKey`
is swallowed and read as 0, so such a storage read error silently yields the
successful identifier `D1` instead of a propagated storage failure, and on
every handled outcome `issue()` succeeds. -/
theorem claim_C9_amended_read_error_partly_swallowed (err : String)
    (read : S3ReadResult) :
    generate_defect_id_raw (.raised err) = .error err ∧
    get_last_defect_number_raw (.raised err) = .error err ∧
    get_last_defect_number (.clientError err) = 0 ∧
    generate_defect_id (.clientError err) =
      ("D" ++ toString (1 : Int), toString (1 : Int)) ∧
    generate_defect_id_raw (.handled read) = .ok (generate_defect_id read) := by
  exact ⟨rfl, rfl, rfl, rfl, rfl⟩

theorem mem_toString_int (i : Int) : ∀ c ∈ (toString i).data, c ∈ idChars := by
  cases i with
  | ofNat m =>
    intro c hc
    exact digitChars_subset_idChars c (mem_repr_digit m c hc)
  | negSucc m =>
    intro c hc
    have hdata : (toString (Int.negSucc m)).data = '-' :: (Nat.repr (m + 1)).data := rfl
    rw [hdata] at hc
    rcases List.mem_cons.1 hc with h | h
    · rw [h]; decide
    · exact digitChars_subset_idChars c (mem_repr_digit (m + 1) c h)

theorem mem_idString (i : Int) : ∀ c ∈ ("D" ++ toString i).data, c ∈ idChars := by
  intro c hc
  rw [data_append] at hc
  rcases List.mem_append.1 hc with h | h
  · rw [List.mem_singleton.1 h]; decide
  · exact mem_toString_int i c h

theorem idString_norm (i : Int) :
    ("D" ++ toString i).trim.toUpper = "D" ++ toString i := by
  rw [trim_eq_self_of_subset (mem_idString i) idChars_not_whitespace]
  exact toUpper_eq_self (fun c hc => idChars_toUpper c (mem_idString i c hc))

/-! The data model: origins, media entries, the persisted JSON document, and
the modelled slice of the S3 bucket. -/

/-- Embedding of `DefectOrigin` (defect_categories.py). -/
inductive DefectOrigin where
  | supplier
  | customer
  | warehouse
deriving DecidableEq

/-- The machine-readable `.value` of each origin. -/
def DefectOrigin.value : DefectOrigin → String
  | .supplier => "supplier"
  | .customer => "customer"
  | .warehouse => "warehouse"

/-- Embedding of the `DefectOrigin(origin_value)` enum constructor, which
raises `ValueError` (here `none`) on an unknown value. -/
def DefectOrigin.fromValue (s : String) : Option DefectOrigin :=
  if s = "supplier" then some .supplier
  else if s = "customer" then some .customer
  else if s = "warehouse" then some .warehouse
  else none

/-- One `{"filename": …, "file_id": …}` entry of the persisted `photos` /
`videos` lists. -/
structure MediaEntry where
  filename : String
  file_id : String
deriving DecidableEq

/-- The persisted JSON document `data_<id>.json`, with the fields written by
`save_defect_to_s3`. -/
structure DefectData where
  id : String
  created_at : String
  updated_at : String
  user_id : Nat
  origin : String
  manufacturer : String
  model : String
  raw_description : String
  summary_description : String
  photos : List MediaEntry
  videos : List MediaEntry
deriving DecidableEq

/-- The modelled slice of the S3 bucket: the JSON documents (keyed by defect
id, most recent write first) and the uploaded media blobs as
(defect id, filename) pairs. The folder marker objects created by
`create_defect_folder` carry no data and are not modelled. -/
structure S3State where
  records : List (String × DefectData)
  files : List (String × String)
deriving DecidableEq

/-- Embedding of `S3Storage.save_defect_json`: whole-document overwrite. -/
def save_defect_json (store : S3State) (defect_id : String) (d : DefectData) :
    S3State :=
  { store with records := (defect_id, d) :: store.records }

/-- Embedding of `S3Storage.load_defect_json`: the most recent write wins. -/
def load_defect_json (store : S3State) (defect_id : String) : Option DefectData :=
  (store.records.find? (fun p => p.1 == defect_id)).map (fun p => p.2)

/-- Python's `str.startswith`, at the character-list level. -/
def startswith (pre s : String) : Bool := List.isPrefixOf pre.data s.data

/-- Embedding of `S3Storage.delete_defect_files_by_prefix`: remove every blob
of the defect whose filename starts with the given string. -/
def deleteDefectFilesByPrefix (store : S3State) (defect_id pre : String) :
    S3State :=
  { store with
    files := store.files.filter
      (fun p => !(p.1 == defect_id && startswith pre p.2)) }

/-- Embedding of `S3Storage.save_defect_file`: upload one blob; `uploadOk`
says whether the S3 put succeeds (on failure the key is `None` and the flag
is false). -/
def save_defect_file (uploadOk : String → Bool) (store : S3State)
    (defect_id filename : String) : S3State × Bool :=
  if uploadOk filename then
    ({ store with files := store.files ++ [(defect_id, filename)] }, true)
  else (store, false)

/-- The photo/video upload loop of `save_defect_to_s3` and
`_save_media_changes_common`: files are named `<pre><idx><ext>` with `idx`
counted from 1, and an entry is recorded only when the upload returns a key. -/
def uploadMedia (uploadOk : String → Bool) (pre ext defect_id : String)
    (ids : List String) (store : S3State) : S3State × List MediaEntry :=
  (List.enumFrom 1 ids).foldl
    (fun acc p =>
      let filename := pre ++ Nat.repr p.1 ++ ext
      let r := save_defect_file uploadOk acc.1 defect_id filename
      (r.1, if r.2 then acc.2 ++ [⟨filename, p.2⟩] else acc.2))
    (store, [])

/-- Embedding of `save_defect_to_s3` (defect_bot.py:289-362). The Telegram
downloads are assumed to deliver bytes (a raised download would abort the
whole handler before any write); `now` is `datetime.now().isoformat()`. -/
def save_defect_to_s3 (uploadOk : String → Bool) (now : String)
    (defect_id : String) (user_id : Nat) (origin : DefectOrigin)
    (manufacturer model raw_description summary_description : String)
    (photo_file_ids video_file_ids : List String) (store : S3State) : S3State :=
  let r1 := uploadMedia uploadOk "photo_" ".jpg" defect_id photo_file_ids store
  let r2 := uploadMedia uploadOk "video_" ".mp4" defect_id video_file_ids r1.1
  let defect_data : DefectData :=
    { id := defect_id,
      created_at := now,
      updated_at := now,
      user_id := user_id,
      origin := origin.value,
      manufacturer := manufacturer,
      model := model,
      raw_description := raw_description,
      summary_description := summary_description,
      photos := r1.2,
      videos := r2.2 }
  save_defect_json r2.1 defect_id defect_data

/-- Embedding of `format_defect_for_view` (defect_bot.py:365-390). -/
def format_defect_for_view (defect_data : DefectData) (hide_summary : Bool) :
    String :=
  let lines : List String :=
    ["ID дефекта: " ++ defect_data.id,
     "",
     "Образование дефекта: " ++ defect_data.origin,
     "1. Производитель: " ++ defect_data.manufacturer,
     "2. Модель: " ++ defect_data.model,
     "3. Что случилось: " ++ defect_data.raw_description]
  let lines := if hide_summary then lines
    else lines ++ ["4. Краткое описание (AI): " ++ defect_data.summary_description]
  let lines := lines ++
    ["4. Фото дефекта: " ++ Nat.repr defect_data.photos.length ++ " шт.",
     "5. Видео дефекта: " ++ Nat.repr defect_data.videos.length ++ " шт."]
  String.intercalate "\n" lines

/-- Embedding of `process_view_id` (defect_bot.py:885-898): normalize the
typed identifier with `.strip().upper()`, load the JSON; on not-found the
handler re-prompts (`none`), otherwise it renders with the summary hidden. -/
def process_view_id (store : S3State) (text : String) : Option String :=
  let defect_id := text.trim.toUpper
  (load_defect_json store defect_id).map (fun d => format_defect_for_view d true)

/-! The registration and edit sessions. -/

/-- States of `RegisterDefectStates`. -/
inductive RegState where
  | origin
  | manufacturer
  | model
  | description
  | choosing_description
  | photos
  | videos
deriving DecidableEq

/-- The aiogram FSM data bag of a registration session; keys that were never
set read as `none` / `[]`, matching the `.get(...)` defaults in the
handlers. -/
structure RegData where
  origin : Option String
  manufacturer : Option String
  model : Option String
  raw_description : Option String
  summary_description : Option String
  original_description : Option String
  photo_file_ids : List String
  video_file_ids : List String
deriving DecidableEq

/-- A registration session: current FSM state (or none) plus the data bag. -/
structure RegSession where
  state : Option RegState
  data : RegData
deriving DecidableEq

/-- Outcome of the Telegram download inside a photo handler: the download can
raise (the `except` branch) or deliver bytes that get classified. -/
inductive PhotoStepOutcome where
  | exn
  | ok (vision : VisionOutcome)
deriving DecidableEq

/-- Embedding of `process_photo` (defect_bot.py:698-751): download, gate the
bytes through `analyze_image_quality_simple`, append the file id to the
scratch list only when accepted; no branch performs a state transition. -/
def process_photo (s : RegSession) (file_id : String) :
    PhotoStepOutcome → RegSession
  | .exn => s
  | .ok vision =>
    let r := analyze_image_quality_simple vision
    if r.1 then
      { s with data :=
          { s.data with photo_file_ids := s.data.photo_file_ids ++ [file_id] } }
    else s

/-- States of `EditDefectStates`. -/
inductive EditState where
  | waiting_for_id
  | choose_field
  | edit_manufacturer
  | edit_model
  | edit_description
  | choosing_edit_description
  | edit_photos
  | edit_videos
deriving DecidableEq

/-- The FSM data bag of an edit session. -/
structure EditData where
  defect_id : Option String
  defect_data : Option DefectData
  photo_file_ids : List String
  video_file_ids : List String
  original_description : Option String
  summary_description : Option String
deriving DecidableEq

/-- An edit session: current FSM state (or none) plus the data bag. -/
structure EditSession where
  state : Option EditState
  data : EditData
deriving DecidableEq

/-- Result of `state.clear()`: no state, empty data bag. -/
def clearedEditSession : EditSession :=
  { state := none,
    data := { defect_id := none, defect_data := none, photo_file_ids := [],
              video_file_ids := [], original_description := none,
              summary_description := none } }

/-- Embedding of `process_edit_photos_collect` (defect_bot.py:1536-1588);
identical gating to `process_photo`, on the edit session's scratch list. -/
def process_edit_photos_collect (s : EditSession) (file_id : String) :
    PhotoStepOutcome → EditSession
  | .exn => s
  | .ok vision =>
    let r := analyze_image_quality_simple vision
    if r.1 then
      { s with data :=
          { s.data with photo_file_ids := s.data.photo_file_ids ++ [file_id] } }
    else s

/-- Embedding of `_start_edit_flow` (defect_bot.py:1026-1045): keep id and
record in the session data and move to `choose_field`. -/
def _start_edit_flow (defect_id : String) (defect_data : DefectData)
    (s : EditSession) : EditSession :=
  { state := some .choose_field,
    data := { s.data with
              defect_id := some defect_id,
              defect_data := some defect_data } }

/-- Embedding of `handle_edit_back` (defect_bot.py:1409-1464). The handler
makes no storage call, which the threaded (and unchanged) `store` records:
no state → nothing; falsy `defect_id`/`defect_data` → session cleared;
`choose_field` → session cleared (cancel); `edit_photos`/`edit_videos` →
scratch list of that kind reset; `choosing_edit_description` → back to
`edit_description` with both description candidates dropped; the five plain
edit sub-states → back to `choose_field` via `_start_edit_flow`. -/
def handle_edit_back (s : EditSession) (store : S3State) :
    EditSession × S3State :=
  match s.state with
  | none => (s, store)
  | some st =>
    match s.data.defect_id, s.data.defect_data with
    | some defect_id, some defect_data =>
      if defect_id.isEmpty then (clearedEditSession, store)
      else if st = .choose_field then (clearedEditSession, store)
      else
        let s1 := if st = .edit_photos then
            { s with data := { s.data with photo_file_ids := [] } } else s
        let s2 := if st = .edit_videos then
            { s1 with data := { s1.data with video_file_ids := [] } } else s1
        if st = .choosing_edit_description then
          ({ s2 with
             state := some .edit_description,
             data := { s2.data with
                       original_description := none,
                       summary_description := none } }, store)
        else if st = .edit_manufacturer ∨ st = .edit_model ∨
            st = .edit_description ∨ st = .edit_photos ∨ st = .edit_videos then
          (_start_edit_flow defect_id defect_data s2, store)
        else (s2, store)
    | _, _ => (clearedEditSession, store)

/-- Status of one `_save_media_changes_common` call. -/
inductive SaveStatus where
  | crashed
  | warned
  | saved
deriving DecidableEq

/-- Result of one `_save_media_changes_common` call. -/
structure SaveResult where
  session : EditSession
  store : S3State
  status : SaveStatus
deriving DecidableEq

/-- Value of `data.get("defect_data", {})` when no record is in the session;
unreachable in flows that passed through `_start_edit_flow`. -/
def emptyDefectData : DefectData :=
  { id := "", created_at := "", updated_at := "", user_id := 0, origin := "",
    manufacturer := "", model := "", raw_description := "",
    summary_description := "", photos := [], videos := [] }

/-- Embedding of `_save_media_changes_common` (defect_bot.py:1604-1661):
`data["defect_id"]` raises `KeyError` when absent (`crashed`, nothing else
happens); in `edit_photos`/`edit_videos` the stored blobs with the matching
filename prefix are deleted, the whole scratch list is uploaded and the
record is rewritten with the fresh media list and `updated_at`; in any other
state the handler only sends the "сначала загрузите" message (`warned`). -/
def _save_media_changes_common (uploadOk : String → Bool) (now : String)
    (s : EditSession) (store : S3State) : SaveResult :=
  match s.data.defect_id with
  | none => { session := s, store := store, status := .crashed }
  | some defect_id =>
    let defect_data := s.data.defect_data.getD emptyDefectData
    match s.state with
    | some .edit_photos =>
      let store1 := deleteDefectFilesByPrefix store defect_id "photo_"
      let r := uploadMedia uploadOk "photo_" ".jpg" defect_id
        s.data.photo_file_ids store1
      let dd := { defect_data with photos := r.2, updated_at := now }
      { session := clearedEditSession,
        store := save_defect_json r.1 defect_id dd, status := .saved }
    | some .edit_videos =>
      let store1 := deleteDefectFilesByPrefix store defect_id "video_"
      let r := uploadMedia uploadOk "video_" ".mp4" defect_id
        s.data.video_file_ids store1
      let dd := { defect_data with videos := r.2, updated_at := now }
      { session := clearedEditSession,
        store := save_defect_json r.1 defect_id dd, status := .saved }
    | _ => { session := s, store := store, status := .warned }

/-- Embedding of `_handle_desc_summary_registration` (defect_bot.py:652-678):
with a falsy summary candidate only an error message is sent; otherwise the
summary text becomes both `raw_description` and `summary_description`, the
photo scratch list is reset and the session advances to `photos`. -/
def _handle_desc_summary_registration (s : RegSession) : RegSession :=
  let summary_description := (s.data.summary_description).getD ""
  if summary_description.isEmpty then s
  else
    { state := some .photos,
      data := { s.data with
                raw_description := some summary_description,
                summary_description := some summary_description,
                photo_file_ids := [] } }

/-- Embedding of `handle_edit_desc_summary` (defect_bot.py:1319-1341): with a
truthy summary candidate, write it into both description fields of the
record, stamp `updated_at`, persist and clear the session; `data["defect_id"]`
raises when absent (session and store then left as they were). -/
def handle_edit_desc_summary (now : String) (s : EditSession) (store : S3State) :
    EditSession × S3State :=
  let summary_description := (s.data.summary_description).getD ""
  if summary_description.isEmpty then (s, store)
  else
    let defect_data := s.data.defect_data.getD emptyDefectData
    let dd := { defect_data with
                raw_description := summary_description,
                summary_description := summary_description,
                updated_at := now }
    match s.data.defect_id with
    | none => (s, store)
    | some defect_id => (clearedEditSession, save_defect_json store defect_id dd)

/-- Embedding of `_finalize_defect` (defect_bot.py:808-854): read the draft
fields with the handlers' defaults, recompute the summary synchronously when
the background task has not yet written a truthy value, issue the
identifier, persist everything, clear the session (the returned pair is the
identifier and the store). `none` models the `ValueError` raised by
`DefectOrigin(origin_value)` on an invalid stored origin. -/
def _finalize_defect (oracle : SummarizeOutcome) (counterRead : S3ReadResult)
    (uploadOk : String → Bool) (now : String) (user_id : Nat)
    (d : RegData) (store : S3State) : Option (String × S3State) :=
  let raw_description := d.raw_description.getD ""
  let summary0 := d.summary_description.getD ""
  let summary_description :=
    if summary0.isEmpty then summarize_defect_text oracle raw_description
    else summary0
  let defect_id := (generate_defect_id counterRead).1
  match DefectOrigin.fromValue (d.origin.getD "") with
  | none => none
  | some origin =>
    some (defect_id,
      save_defect_to_s3 uploadOk now defect_id user_id origin
        (d.manufacturer.getD "") (d.model.getD "") raw_description
        summary_description d.photo_file_ids d.video_file_ids store)

theorem isEmpty_eq_false {s : String} (h : s ≠ "") : s.isEmpty = false := by
  rcases Bool.eq_false_or_eq_true s.isEmpty with hb | hb
  · exact absurd ((String.isEmpty_iff s).1 hb) h
  · exact hb

theorem take_pos_ne_empty {s : String} {n : Nat} (hs : s ≠ "") (hn : 0 < n) :
    s.take n ≠ "" := by
  intro h
  have hdata : s.data.take n = [] := by
    have := congrArg String.data h
    rwa [String.data_take] at this
  rcases List.take_eq_nil_iff.1 hdata with h1 | h1
  · omega
  · exact hs (String.ext h1)

theorem trim_eq_self_cx (s : String)
    (h1 : (s.data.headD ' ').isWhitespace = false)
    (h2 : (s.data.getLastD ' ').isWhitespace = false) : s.trim = s := by
  refine trim_eq_self (fun c hc => ?_) (fun c hc => ?_)
  · rwa [show s.data.headD ' ' = c by rw [List.headD_eq_head?, hc]; rfl] at h1
  · rwa [show s.data.getLastD ' ' = c by rw [List.getLastD_eq_getLast?, hc]; rfl] at h2

theorem load_after_save (store : S3State) (defect_id : String) (rec : DefectData) :
    load_defect_json (save_defect_json store defect_id rec) defect_id = some rec := by
  unfold load_defect_json save_defect_json
  simp

/-- Claim C7: register-then-view round trip. Finalizing any draft whose
origin is valid persists a record holding exactly the entered manufacturer,
model and raw description; viewing the returned identifier renders that
record, and the rendered view is independent of the stored
`summary_description` (the summary is never shown). -/
theorem claim_C7_register_view_round_trip
    (oracle : SummarizeOutcome) (counterRead : S3ReadResult)
    (uploadOk : String → Bool) (now : String) (user_id : Nat)
    (d : RegData) (store : S3State) (origin : DefectOrigin)
    (horigin : DefectOrigin.fromValue (d.origin.getD "") = some origin) :
    ∃ defect_id store',
      _finalize_defect oracle counterRead uploadOk now user_id d store =
        some (defect_id, store') ∧
      ∃ rec, load_defect_json store' defect_id = some rec ∧
        rec.manufacturer = d.manufacturer.getD "" ∧
        rec.model = d.model.getD "" ∧
        rec.raw_description = d.raw_description.getD "" ∧
        process_view_id store' defect_id = some (format_defect_for_view rec true) ∧
        ∀ s', format_defect_for_view { rec with summary_description := s' } true =
          format_defect_for_view rec true := by
  simp only [_finalize_defect, horigin]
  refine ⟨(generate_defect_id counterRead).1, _, rfl, ?_⟩
  simp only [save_defect_to_s3]
  refine ⟨_, load_after_save _ _ _, rfl, rfl, rfl, ?_, fun s' => rfl⟩
  show ((load_defect_json _ (((generate_defect_id counterRead).1).trim.toUpper)).map _) = _
  rw [show (generate_defect_id counterRead).1 =
    "D" ++ toString (get_last_defect_number counterRead + 1) from rfl, idString_norm]
  rw [load_after_save]
  rfl

/-- Claim C7 witness: a concrete registration (origin warehouse, Acme / X1 /
"left corner is cracked badly") instantiating the round-trip theorem. -/
theorem claim_C7_register_view_round_trip_witness :
    ∃ defect_id store',
      _finalize_defect .unconfigured .noSuchKey (fun _ => true)
        "2024-01-01T00:00:00" 7
        { origin := some "warehouse", manufacturer := some "Acme",
          model := some "X1",
          raw_description := some "left corner is cracked badly",
          summary_description := none, original_description := none,
          photo_file_ids := [], video_file_ids := [] }
        { records := [], files := [] } = some (defect_id, store') ∧
      ∃ rec, load_defect_json store' defect_id = some rec ∧
        rec.manufacturer = "Acme" ∧
        rec.model = "X1" ∧
        rec.raw_description = "left corner is cracked badly" ∧
        process_view_id store' defect_id = some (format_defect_for_view rec true) ∧
        ∀ s', format_defect_for_view { rec with summary_description := s' } true =
          format_defect_for_view rec true :=
  claim_C7_register_view_round_trip .unconfigured .noSuchKey (fun _ => true)
    "2024-01-01T00:00:00" 7 _ { records := [], files := [] }
    DefectOrigin.warehouse (by decide)

/-- A draft that reached Finalize before the background summary landed:
valid origin, manufacturer, model and a validated (≥ 10 chars, stripped)
description, `summary_description` never written. -/
def pendingSummaryDraft : RegData :=
  { origin := some "warehouse", manufacturer := some "Acme",
    model := some "X1",
    raw_description := some "left corner is cracked badly",
    summary_description := none, original_description := none,
    photo_file_ids := [], video_file_ids := [] }

/-- Claim C1 fails as stated: when the enrichment call succeeds but returns
blank content, `summarize_defect_text` yields `""` and Finalize persists an
empty `summary_description` — the persisted field is a string, but not a
non-empty one. -/
theorem claim_C1_counterexample :
    (_finalize_defect (.success "") .noSuchKey (fun _ => true)
        "2024-01-01T00:00:00" 7 pendingSummaryDraft { records := [], files := [] }).map
      (fun r => (load_defect_json r.2 r.1).map (fun rec => rec.summary_description))
      = some (some "") := by
  have hsum : summarize_defect_text (.success "") "left corner is cracked badly" = "" := by
    show (String.trim "").take 500 = ""
    rw [show ("" : String) = (⟨[]⟩ : String) from rfl, trim_empty, String.take_eq]
    rfl
  simp only [_finalize_defect, pendingSummaryDraft, Option.getD_some, Option.getD_none,
    show ("" : String).isEmpty = true from rfl, if_true,
    show DefectOrigin.fromValue "warehouse" = some DefectOrigin.warehouse from by decide]
  rw [hsum]
  rfl

/-- Claim C1 as amended: Finalize always computes the missing summary
synchronously from `raw_description` and persists exactly that value; the
persisted `summary_description` is non-empty whenever the service is
unconfigured or errors (the fallback truncates the non-blank raw
description), or succeeds with non-blank content — only blank successful
content makes the persisted summary empty. -/
theorem claim_C1_amended_finalize_computes_summary
    (oracle : SummarizeOutcome) (counterRead : S3ReadResult)
    (uploadOk : String → Bool) (now : String) (user_id : Nat)
    (d : RegData) (store : S3State) (origin : DefectOrigin)
    (horigin : DefectOrigin.fromValue (d.origin.getD "") = some origin)
    (hpending : d.summary_description.getD "" = "")
    (hraw : (d.raw_description.getD "").trim ≠ "")
    (hcontent : ∀ c, oracle = .success c → c.trim ≠ "") :
    ∃ defect_id store',
      _finalize_defect oracle counterRead uploadOk now user_id d store =
        some (defect_id, store') ∧
      (load_defect_json store' defect_id).map (fun rec => rec.summary_description) =
        some (summarize_defect_text oracle (d.raw_description.getD "")) ∧
      summarize_defect_text oracle (d.raw_description.getD "") ≠ "" := by
  refine ⟨(generate_defect_id counterRead).1,
    save_defect_to_s3 uploadOk now (generate_defect_id counterRead).1 user_id origin
      (d.manufacturer.getD "") (d.model.getD "") (d.raw_description.getD "")
      (summarize_defect_text oracle (d.raw_description.getD "")) d.photo_file_ids
      d.video_file_ids store, ?_, ?_, ?_⟩
  · simp only [_finalize_defect, horigin, hpending,
      show ("" : String).isEmpty = true from rfl, if_true]
  · simp only [save_defect_to_s3]
    rw [load_after_save]
    rfl
  · cases oracle with
    | unconfigured => exact take_pos_ne_empty hraw (by norm_num)
    | failure => exact take_pos_ne_empty hraw (by norm_num)
    | success c => exact take_pos_ne_empty (hcontent c rfl) (by norm_num)

/-- Claim C1 amended witness: concrete pending-summary draft finalized with
the service unconfigured. -/
theorem claim_C1_amended_finalize_computes_summary_witness :
    ∃ defect_id store',
      _finalize_defect .unconfigured .noSuchKey (fun _ => true)
        "2024-01-01T00:00:00" 7 pendingSummaryDraft { records := [], files := [] } =
        some (defect_id, store') ∧
      (load_defect_json store' defect_id).map (fun rec => rec.summary_description) =
        some (summarize_defect_text .unconfigured
          (pendingSummaryDraft.raw_description.getD "")) ∧
      summarize_defect_text .unconfigured
        (pendingSummaryDraft.raw_description.getD "") ≠ "" :=
  claim_C1_amended_finalize_computes_summary .unconfigured .noSuchKey
    (fun _ => true) "2024-01-01T00:00:00" 7 pendingSummaryDraft
    { records := [], files := [] } DefectOrigin.warehouse (by decide) (by decide)
    (by
      rw [show pendingSummaryDraft.raw_description.getD "" =
        "left corner is cracked badly" from rfl]
      rw [trim_eq_self_cx "left corner is cracked badly" (by decide) (by decide)]
      decide)
    (fun c hc => by cases hc)

/-- Claim C3: the media gate is fail-open exactly when the enrichment service
is unconfigured and fail-closed on service error: unconfigured gives
`(accepted = true, explanation)`, an error gives `accepted = false` with the
error text surfaced in the explanation (never a silent accept), and otherwise
the verdict is exactly the service's classification. -/
theorem claim_C3_media_gate_fail_modes (err analysis : String) (verdict : Bool) :
    analyze_image_quality_simple .unconfigured =
      (true, "AI‑проверка выключена, фото принято по умолчанию.") ∧
    (analyze_image_quality_simple (.failure err)).1 = false ∧
    (analyze_image_quality_simple (.failure err)).2 =
      "Произошла ошибка при анализе изображения: " ++ err ∧
    analyze_image_quality_simple (.success verdict analysis) = (verdict, analysis) := by
  refine ⟨rfl, rfl, rfl, rfl⟩

/-- Claim C8: when the service is unconfigured or errors, the summary is a
truncated copy (a prefix of the stripped input) of length at most 300, and
in every case the summary has length at most 500. -/
theorem claim_C8_summarize_truncation (raw_text : String) :
    (summarize_defect_text .unconfigured raw_text).data <+: (raw_text.trim).data ∧
    (summarize_defect_text .failure raw_text).data <+: (raw_text.trim).data ∧
    (summarize_defect_text .unconfigured raw_text).length ≤ 300 ∧
    (summarize_defect_text .failure raw_text).length ≤ 300 ∧
    ∀ outcome : SummarizeOutcome,
      (summarize_defect_text outcome raw_text).length ≤ 500 := by
  refine ⟨?_, ?_, ?_, ?_, ?_⟩
  · simpa [summarize_defect_text, String.take_eq] using
      List.take_prefix 300 (raw_text.trim).data
  · simpa [summarize_defect_text, String.take_eq] using
      List.take_prefix 300 (raw_text.trim).data
  · simp only [summarize_defect_text, String.length, String.data_take]
    exact le_trans (List.length_take_le _ _) (by norm_num)
  · simp only [summarize_defect_text, String.length, String.data_take]
    exact le_trans (List.length_take_le _ _) (by norm_num)
  · intro outcome
    cases outcome <;>
      simp only [summarize_defect_text, String.length, String.data_take] <;>
      exact le_trans (List.length_take_le _ _) (by norm_num)

/-- Claim C4: a photo the media gate classifies not-acceptable is never
appended to the scratch photo list, the count does not increase and the
session (state included) is unchanged — in registration `photos` and in
`edit_photos` alike; no branch of either handler changes the state, and the
photo list grows only on an accepted photo, by exactly that photo. -/
theorem claim_C4_rejected_photo_not_appended
    (s : RegSession) (t : EditSession) (file_id : String) (vision : VisionOutcome)
    (hrej : (analyze_image_quality_simple vision).1 = false) :
    process_photo s file_id (.ok vision) = s ∧
    process_edit_photos_collect t file_id (.ok vision) = t ∧
    (∀ o : PhotoStepOutcome, (process_photo s file_id o).state = s.state) ∧
    (∀ o : PhotoStepOutcome,
      (process_edit_photos_collect t file_id o).state = t.state) ∧
    (∀ o : PhotoStepOutcome,
      (process_photo s file_id o).data.photo_file_ids ≠ s.data.photo_file_ids →
      ∃ v, o = .ok v ∧ (analyze_image_quality_simple v).1 = true ∧
        (process_photo s file_id o).data.photo_file_ids =
          s.data.photo_file_ids ++ [file_id]) := by
  refine ⟨?_, ?_, ?_, ?_, ?_⟩
  · simp [process_photo, hrej]
  · simp [process_edit_photos_collect, hrej]
  · intro o
    cases o with
    | exn => rfl
    | ok v =>
      by_cases hv : (analyze_image_quality_simple v).1 <;>
        simp [process_photo, hv]
  · intro o
    cases o with
    | exn => rfl
    | ok v =>
      by_cases hv : (analyze_image_quality_simple v).1 <;>
        simp [process_edit_photos_collect, hv]
  · intro o
    cases o with
    | exn => intro h; exact absurd rfl h
    | ok v =>
      by_cases hv : (analyze_image_quality_simple v).1
      · intro _
        exact ⟨v, rfl, hv, by simp [process_photo, hv]⟩
      · intro h
        rw [show process_photo s file_id (.ok v) = s by simp [process_photo, hv]] at h
        exact absurd rfl h

/-- A registration session sitting in `photos` with one collected photo. -/
def samplePhotoRegSession : RegSession :=
  { state := some .photos,
    data := { origin := some "warehouse", manufacturer := some "Acme",
              model := some "X1",
              raw_description := some "left corner is cracked badly",
              summary_description := some "cracked corner",
              original_description := none,
              photo_file_ids := ["p1"], video_file_ids := [] } }

/-- An edit session sitting in `edit_photos` with one scratch photo. -/
def samplePhotoEditSession : EditSession :=
  { state := some .edit_photos,
    data := { defect_id := some "D1", defect_data := some emptyDefectData,
              photo_file_ids := ["p1"], video_file_ids := [],
              original_description := none, summary_description := none } }

/-- Claim C4 witness: a concrete rejected photo (the vision call errored, so
the gate fails closed) leaves both concrete sessions untouched. -/
theorem claim_C4_rejected_photo_not_appended_witness :
    process_photo samplePhotoRegSession "p2" (.ok (.failure "timeout")) =
      samplePhotoRegSession ∧
    process_edit_photos_collect samplePhotoEditSession "p2"
        (.ok (.failure "timeout")) = samplePhotoEditSession ∧
    (∀ o : PhotoStepOutcome,
      (process_photo samplePhotoRegSession "p2" o).state =
        samplePhotoRegSession.state) ∧
    (∀ o : PhotoStepOutcome,
      (process_edit_photos_collect samplePhotoEditSession "p2" o).state =
        samplePhotoEditSession.state) ∧
    (∀ o : PhotoStepOutcome,
      (process_photo samplePhotoRegSession "p2" o).data.photo_file_ids ≠
        samplePhotoRegSession.data.photo_file_ids →
      ∃ v, o = .ok v ∧ (analyze_image_quality_simple v).1 = true ∧
        (process_photo samplePhotoRegSession "p2" o).data.photo_file_ids =
          samplePhotoRegSession.data.photo_file_ids ++ ["p2"]) :=
  claim_C4_rejected_photo_not_appended samplePhotoRegSession
    samplePhotoEditSession "p2" (.failure "timeout") (by decide)

/-- An edit session choosing between the original and summarized
description, as `handle_edit_back` receives it. -/
def choosingEditSession : EditSession :=
  { state := some .choosing_edit_description,
    data := { defect_id := some "D1", defect_data := some emptyDefectData,
              photo_file_ids := [], video_file_ids := [],
              original_description := some "the glass panel arrived shattered",
              summary_description := some "shattered glass panel" } }

/-- Claim C5 fails as stated: Back from `ChoosingEditDescription` does not
return to `ChooseField` — `handle_edit_back` moves that session to
`EditDescription`. -/
theorem claim_C5_counterexample :
    (handle_edit_back choosingEditSession { records := [], files := [] }).1.state ≠
      some EditState.choose_field ∧
    (handle_edit_back choosingEditSession { records := [], files := [] }).1.state =
      some EditState.edit_description := by
  exact ⟨by decide, by decide⟩

/-- Claim C5 as amended: with a truthy `defect_id`/`defect_data` in the
session, Back performs no store write; from `ChooseField` it cancels with
the session cleared; from the five plain edit sub-states it returns to
`ChooseField`, clearing the photo scratch list when leaving `EditPhotos` and
the video scratch list when leaving `EditVideos`; from
`ChoosingEditDescription` it returns to `EditDescription` (not
`ChooseField`), dropping both description candidates. -/
theorem claim_C5_amended_edit_back
    (s : EditSession) (store : S3State) (did : String) (dd : DefectData)
    (hid : s.data.defect_id = some did) (hdd : s.data.defect_data = some dd)
    (hne : did.isEmpty = false) :
    (handle_edit_back s store).2 = store ∧
    (s.state = some .choose_field →
      (handle_edit_back s store).1 = clearedEditSession) ∧
    (∀ st, s.state = some st →
      st = EditState.edit_manufacturer ∨ st = EditState.edit_model ∨
        st = EditState.edit_description ∨ st = EditState.edit_photos ∨
        st = EditState.edit_videos →
      (handle_edit_back s store).1.state = some EditState.choose_field) ∧
    (s.state = some .edit_photos →
      (handle_edit_back s store).1.data.photo_file_ids = []) ∧
    (s.state = some .edit_videos →
      (handle_edit_back s store).1.data.video_file_ids = []) ∧
    (s.state = some .choosing_edit_description →
      (handle_edit_back s store).1.state = some EditState.edit_description ∧
      (handle_edit_back s store).1.data.original_description = none ∧
      (handle_edit_back s store).1.data.summary_description = none) := by
  refine ⟨?_, ?_, ?_, ?_, ?_, ?_⟩
  · rcases hst : s.state with _ | st
    · simp [handle_edit_back, hst]
    · cases st <;> simp [handle_edit_back, hst, hid, hdd, hne]
  · intro h
    simp [handle_edit_back, h, hid, hdd, hne]
  · intro st h hmem
    rcases hmem with rfl | rfl | rfl | rfl | rfl <;>
      simp [handle_edit_back, h, hid, hdd, hne, _start_edit_flow]
  · intro h
    simp [handle_edit_back, h, hid, hdd, hne, _start_edit_flow]
  · intro h
    simp [handle_edit_back, h, hid, hdd, hne, _start_edit_flow]
  · intro h
    simp [handle_edit_back, h, hid, hdd, hne]

/-- Claim C5 amended witness: the amended Back behaviour instantiated at the
concrete `choosingEditSession`. -/
theorem claim_C5_amended_edit_back_witness :
    (handle_edit_back choosingEditSession { records := [], files := [] }).2 =
      { records := [], files := [] } ∧
    (choosingEditSession.state = some .choose_field →
      (handle_edit_back choosingEditSession { records := [], files := [] }).1 =
        clearedEditSession) ∧
    (∀ st, choosingEditSession.state = some st →
      st = EditState.edit_manufacturer ∨ st = EditState.edit_model ∨
        st = EditState.edit_description ∨ st = EditState.edit_photos ∨
        st = EditState.edit_videos →
      (handle_edit_back choosingEditSession
        { records := [], files := [] }).1.state = some EditState.choose_field) ∧
    (choosingEditSession.state = some .edit_photos →
      (handle_edit_back choosingEditSession
        { records := [], files := [] }).1.data.photo_file_ids = []) ∧
    (choosingEditSession.state = some .edit_videos →
      (handle_edit_back choosingEditSession
        { records := [], files := [] }).1.data.video_file_ids = []) ∧
    (choosingEditSession.state = some .choosing_edit_description →
      (handle_edit_back choosingEditSession
        { records := [], files := [] }).1.state = some EditState.edit_description ∧
      (handle_edit_back choosingEditSession
        { records := [], files := [] }).1.data.original_description = none ∧
      (handle_edit_back choosingEditSession
        { records := [], files := [] }).1.data.summary_description = none) :=
  claim_C5_amended_edit_back choosingEditSession { records := [], files := [] }
    "D1" emptyDefectData rfl rfl (by decide)

/-- A persisted record with one stored photo. -/
def savedPhotoRecord : DefectData :=
  { id := "D1", created_at := "2024-01-01T00:00:00",
    updated_at := "2024-01-01T00:00:00", user_id := 7, origin := "warehouse",
    manufacturer := "Acme", model := "X1",
    raw_description := "left corner is cracked badly",
    summary_description := "cracked corner",
    photos := [⟨"photo_1.jpg", "oldphoto"⟩], videos := [] }

/-- An edit session that entered `edit_photos` and accumulated no scratch
photos. -/
def emptyScratchPhotoSession : EditSession :=
  { state := some .edit_photos,
    data := { defect_id := some "D1", defect_data := some savedPhotoRecord,
              photo_file_ids := [], video_file_ids := [],
              original_description := none, summary_description := none } }

/-- The store holding `savedPhotoRecord` and its one photo blob. -/
def savedPhotoStore : S3State :=
  { records := [("D1", savedPhotoRecord)], files := [("D1", "photo_1.jpg")] }

/-- Claim C6 fails as stated: issuing save in `EditPhotos` with no scratch
list accumulated is not a no-op — the handler deletes the stored photo
blobs, writes the record with an empty photo list, and the store changes. -/
theorem claim_C6_counterexample :
    (_save_media_changes_common (fun _ => true) "2024-01-02T00:00:00"
        emptyScratchPhotoSession savedPhotoStore).status = SaveStatus.saved ∧
    (_save_media_changes_common (fun _ => true) "2024-01-02T00:00:00"
        emptyScratchPhotoSession savedPhotoStore).store.files = [] ∧
    (load_defect_json (_save_media_changes_common (fun _ => true)
        "2024-01-02T00:00:00" emptyScratchPhotoSession savedPhotoStore).store
        "D1").map (fun r => r.photos) = some [] ∧
    (_save_media_changes_common (fun _ => true) "2024-01-02T00:00:00"
        emptyScratchPhotoSession savedPhotoStore).store ≠ savedPhotoStore := by
  exact ⟨rfl, rfl, rfl, by decide⟩

/-- Claim C6 as amended: issuing save while the session is not in a
media-edit sub-state (so no scratch list is active) is a no-op: the store —
record and blobs — is unchanged, the session is unchanged, nothing is saved,
and when the session still has a `defect_id` the user gets the "сначала
загрузите" warning (with no `defect_id` the handler aborts on `KeyError`
before any write). Inside `EditPhotos`/`EditVideos`, save always performs
the replace, even with an empty scratch list. -/
theorem claim_C6_amended_save_nop_outside_media_states
    (uploadOk : String → Bool) (now : String) (s : EditSession) (store : S3State)
    (hstate : ∀ st, s.state = some st →
      st ≠ EditState.edit_photos ∧ st ≠ EditState.edit_videos) :
    (_save_media_changes_common uploadOk now s store).store = store ∧
    (_save_media_changes_common uploadOk now s store).session = s ∧
    (_save_media_changes_common uploadOk now s store).status ≠ SaveStatus.saved ∧
    (s.data.defect_id.isSome →
      (_save_media_changes_common uploadOk now s store).status =
        SaveStatus.warned) := by
  rcases hdid : s.data.defect_id with _ | did
  · simp [_save_media_changes_common, hdid]
  · rcases hst : s.state with _ | st
    · simp [_save_media_changes_common, hdid, hst]
    · have hnotmedia := hstate st hst
      cases st <;>
        simp_all [_save_media_changes_common]

/-- An edit session back at `choose_field` (no media scratch list active),
with the record still loaded. -/
def chooseFieldSession : EditSession :=
  { state := some .choose_field,
    data := { defect_id := some "D1", defect_data := some savedPhotoRecord,
              photo_file_ids := [], video_file_ids := [],
              original_description := none, summary_description := none } }

/-- Claim C6 amended witness: pressing save from `choose_field` leaves the
concrete store untouched and only warns. -/
theorem claim_C6_amended_save_nop_witness :
    (_save_media_changes_common (fun _ => true) "2024-01-02T00:00:00"
        chooseFieldSession savedPhotoStore).store = savedPhotoStore ∧
    (_save_media_changes_common (fun _ => true) "2024-01-02T00:00:00"
        chooseFieldSession savedPhotoStore).session = chooseFieldSession ∧
    (_save_media_changes_common (fun _ => true) "2024-01-02T00:00:00"
        chooseFieldSession savedPhotoStore).status ≠ SaveStatus.saved ∧
    (chooseFieldSession.data.defect_id.isSome →
      (_save_media_changes_common (fun _ => true) "2024-01-02T00:00:00"
          chooseFieldSession savedPhotoStore).status = SaveStatus.warned) :=
  claim_C6_amended_save_nop_outside_media_states (fun _ => true)
    "2024-01-02T00:00:00" chooseFieldSession savedPhotoStore
    (fun st h => by injection h with h2; subst h2; exact ⟨by decide, by decide⟩)

/-- Claim C10: accepting the summarized variant stores the summary text as
both `raw_description` and `summary_description` — in the registration draft
and in the persisted record in the edit flow — so the two fields are equal,
and the original transcription (any text different from the summary) ends up
in neither field. -/
theorem claim_C10_summary_choice_equates_descriptions
    (s : RegSession) (t : EditSession) (now : String) (store : S3State)
    (summary did : String)
    (hs : s.data.summary_description = some summary)
    (ht : t.data.summary_description = some summary)
    (hdid : t.data.defect_id = some did)
    (hsummary : summary ≠ "") :
    ((_handle_desc_summary_registration s).data.raw_description = some summary ∧
     (_handle_desc_summary_registration s).data.summary_description =
       some summary) ∧
    ((load_defect_json (handle_edit_desc_summary now t store).2 did).map
        (fun rec => (rec.raw_description, rec.summary_description)) =
      some (summary, summary)) ∧
    (∀ original : String, original ≠ summary →
      (_handle_desc_summary_registration s).data.raw_description ≠
        some original ∧
      (load_defect_json (handle_edit_desc_summary now t store).2 did).map
          (fun rec => rec.raw_description) ≠ some original) := by
  have hemp := isEmpty_eq_false hsummary
  have hreg : (_handle_desc_summary_registration s).data.raw_description =
      some summary ∧
      (_handle_desc_summary_registration s).data.summary_description =
        some summary := by
    constructor <;> simp [_handle_desc_summary_registration, hs, hemp]
  have hedit : (handle_edit_desc_summary now t store).2 =
      save_defect_json store did
        { t.data.defect_data.getD emptyDefectData with
          raw_description := summary, summary_description := summary,
          updated_at := now } := by
    simp [handle_edit_desc_summary, ht, hemp, hdid]
  refine ⟨hreg, ?_, ?_⟩
  · rw [hedit, load_after_save]
    rfl
  · intro original hneq
    constructor
    · rw [hreg.1]
      intro hcontr
      exact hneq (Option.some.inj hcontr).symm
    · rw [hedit, load_after_save]
      intro hcontr
      exact hneq (Option.some.inj hcontr).symm

/-- A registration session in `choosing_description` holding both candidate
texts. -/
def choosingRegSession : RegSession :=
  { state := some .choosing_description,
    data := { origin := some "warehouse", manufacturer := some "Acme",
              model := some "X1", raw_description := none,
              summary_description := some "shattered glass panel",
              original_description := some "the glass panel arrived shattered",
              photo_file_ids := [], video_file_ids := [] } }

/-- Claim C10 witness: accepting the summary in the two concrete sessions. -/
theorem claim_C10_summary_choice_equates_descriptions_witness :
    ((_handle_desc_summary_registration choosingRegSession).data.raw_description =
        some "shattered glass panel" ∧
     (_handle_desc_summary_registration
        choosingRegSession).data.summary_description =
        some "shattered glass panel") ∧
    ((load_defect_json (handle_edit_desc_summary "2024-01-02T00:00:00"
          choosingEditSession savedPhotoStore).2 "D1").map
        (fun rec => (rec.raw_description, rec.summary_description)) =
      some ("shattered glass panel", "shattered glass panel")) ∧
    (∀ original : String, original ≠ "shattered glass panel" →
      (_handle_desc_summary_registration
          choosingRegSession).data.raw_description ≠ some original ∧
      (load_defect_json (handle_edit_desc_summary "2024-01-02T00:00:00"
            choosingEditSession savedPhotoStore).2 "D1").map
          (fun rec => rec.raw_description) ≠ some original) :=
  claim_C10_summary_choice_equates_descriptions choosingRegSession
    choosingEditSession "2024-01-02T00:00:00" savedPhotoStore
    "shattered glass panel" "D1" rfl rfl rfl (by decide)

end TgDefect
